import Mathlib

/-
  Shallow embedding of the keyclaim-nodejs-sdk client (src/unnamed/part_000).

  The source is a TypeScript class KeyClaimClient with four operations:
  createChallenge, generateResponse, validateChallenge and validate, plus a
  private handleError normalizer and a constructor.  Machine integers are
  modelled as Nat with explicit reduction mod 2^32 where the SHA-256 rounds
  overflow; Node crypto SHA-256 and HMAC-SHA256 are embedded as executable
  functions below; fallible code returns Except KeyClaimError.  HTTP transport
  is abstracted as an explicit Except AxiosError outcome passed to each
  network operation, mirroring what axios either resolves or throws for the
  single request the operation performs.  Since the methods never assign to
  any field of the class after construction, each operation threads the
  client state explicitly and returns it alongside its result.
-/

set_option maxRecDepth 8000
set_option maxHeartbeats 1600000

/-! ## SHA-256 over byte lists (Nat entries, each < 256) -/

def mask32 (x : Nat) : Nat := x % 4294967296

def xor32 (a b : Nat) : Nat := a ^^^ b

def and32 (a b : Nat) : Nat := a &&& b

def not32 (a : Nat) : Nat := 4294967295 - mask32 a

def xor8 (a b : Nat) : Nat := a ^^^ b

def rotr32 (x n : Nat) : Nat := (x >>> n) ||| (mask32 (x <<< (32 - n)))

def shr32 (x n : Nat) : Nat := x >>> n

def bsig0 (x : Nat) : Nat := xor32 (rotr32 x 2) (xor32 (rotr32 x 13) (rotr32 x 22))

def bsig1 (x : Nat) : Nat := xor32 (rotr32 x 6) (xor32 (rotr32 x 11) (rotr32 x 25))

def ssig0 (x : Nat) : Nat := xor32 (rotr32 x 7) (xor32 (rotr32 x 18) (shr32 x 3))

def ssig1 (x : Nat) : Nat := xor32 (rotr32 x 17) (xor32 (rotr32 x 19) (shr32 x 10))

def chF (e f g : Nat) : Nat := xor32 (and32 e f) (and32 (not32 e) g)

def majF (a b c : Nat) : Nat := xor32 (and32 a b) (xor32 (and32 a c) (and32 b c))

def sha256K : List Nat :=
  [1116352408, 1899447441, 3049323471, 3921009573, 961987163,
   1508970993, 2453635748, 2870763221, 3624381080, 310598401,
   607225278, 1426881987, 1925078388, 2162078206, 2614888103,
   3248222580, 3835390401, 4022224774, 264347078, 604807628,
   770255983, 1249150122, 1555081692, 1996064986, 2554220882,
   2821834349, 2952996808, 3210313671, 3336571891, 3584528711,
   113926993, 338241895, 666307205, 773529912, 1294757372,
   1396182291, 1695183700, 1986661051, 2177026350, 2456956037,
   2730485921, 2820302411, 3259730800, 3345764771, 3516065817,
   3600352804, 4094571909, 275423344, 430227734, 506948616,
   659060556, 883997877, 958139571, 1322822218, 1537002063,
   1747873779, 1955562222, 2024104815, 2227730452, 2361852424,
   2428436474, 2756734187, 3204031479, 3329325298]

structure Hash8 where
  a : Nat
  b : Nat
  c : Nat
  d : Nat
  e : Nat
  f : Nat
  g : Nat
  h : Nat
deriving Repr, DecidableEq

def sha256H0 : Hash8 :=
  ⟨1779033703, 3144134277, 1013904242, 2773480762,
   1359893119, 2600822924, 528734635, 1541459225⟩

def sha256Round (st : Hash8) (k w : Nat) : Hash8 :=
  let t1 := mask32 (st.h + bsig1 st.e + chF st.e st.f st.g + k + w)
  let t2 := mask32 (bsig0 st.a + majF st.a st.b st.c)
  ⟨mask32 (t1 + t2), st.a, st.b, st.c, mask32 (st.d + t1), st.e, st.f, st.g⟩

def sha256Rounds : List Nat → List Nat → Hash8 → Hash8
  | k :: ks, w :: ws, st => sha256Rounds ks ws (sha256Round st k w)
  | _, _, st => st

def sha256Extend : Nat → List Nat → List Nat
  | 0, acc => acc
  | t+1, acc =>
    let n := acc.length
    let nw := mask32 (ssig1 (acc.getD (n - 2) 0) + acc.getD (n - 7) 0 +
                      ssig0 (acc.getD (n - 15) 0) + acc.getD (n - 16) 0)
    sha256Extend t (acc ++ [nw])

def bytesToWords : List Nat → List Nat
  | b0 :: b1 :: b2 :: b3 :: rest =>
    (b0 * 16777216 + b1 * 65536 + b2 * 256 + b3) :: bytesToWords rest
  | _ => []

def sha256Compress (st : Hash8) (block : List Nat) : Hash8 :=
  let ws := sha256Extend 48 (bytesToWords block)
  let r := sha256Rounds sha256K ws st
  ⟨mask32 (st.a + r.a), mask32 (st.b + r.b), mask32 (st.c + r.c), mask32 (st.d + r.d),
   mask32 (st.e + r.e), mask32 (st.f + r.f), mask32 (st.g + r.g), mask32 (st.h + r.h)⟩

def sha256Blocks : Nat → List Nat → Hash8 → Hash8
  | 0, _, st => st
  | _+1, [], st => st
  | fuel+1, bytes, st => sha256Blocks fuel (bytes.drop 64) (sha256Compress st (bytes.take 64))

def be64 (n : Nat) : List Nat :=
  [n / 72057594037927936 % 256, n / 281474976710656 % 256, n / 1099511627776 % 256,
   n / 4294967296 % 256, n / 16777216 % 256, n / 65536 % 256, n / 256 % 256, n % 256]

def sha256Pad (msg : List Nat) : List Nat :=
  let l := msg.length
  msg ++ [128] ++ List.replicate ((119 - l % 64) % 64) 0 ++ be64 (l * 8)

def hash8Words (st : Hash8) : List Nat := [st.a, st.b, st.c, st.d, st.e, st.f, st.g, st.h]

def wordBytes (w : Nat) : List Nat := [w / 16777216 % 256, w / 65536 % 256, w / 256 % 256, w % 256]

def sha256Bytes (msg : List Nat) : List Nat :=
  let padded := sha256Pad msg
  (hash8Words (sha256Blocks (padded.length / 64) padded sha256H0)).flatMap wordBytes

def hexDigit (n : Nat) : Char := Char.ofNat (if n < 10 then 48 + n else 87 + n)

def byteHex (b : Nat) : List Char := [hexDigit (b / 16 % 16), hexDigit (b % 16)]

def bytesHex (bs : List Nat) : String := String.mk (bs.flatMap byteHex)

def charUtf8 (c : Char) : List Nat :=
  let n := c.toNat
  if n < 128 then [n]
  else if n < 2048 then [192 + n / 64, 128 + n % 64]
  else if n < 65536 then [224 + n / 4096, 128 + n / 64 % 64, 128 + n % 64]
  else [240 + n / 262144, 128 + n / 4096 % 64, 128 + n / 64 % 64, 128 + n % 64]

def utf8Bytes (s : String) : List Nat := s.data.flatMap charUtf8

/-- Hex digest of SHA-256 over the UTF-8 bytes of a string: the embedding of
Node crypto createHash sha256 + update(string) + digest hex. -/
def sha256Hex (s : String) : String := bytesHex (sha256Bytes (utf8Bytes s))

/-- Hex digest of HMAC-SHA256: the embedding of Node crypto
createHmac sha256 with a string key + update(string) + digest hex. -/
def hmacSha256Hex (key msg : String) : String :=
  let kb := utf8Bytes key
  let k0 := if kb.length > 64 then sha256Bytes kb else kb
  let kp := k0 ++ List.replicate (64 - k0.length) 0
  let ipad := kp.map (xor8 54)
  let opad := kp.map (xor8 92)
  bytesHex (sha256Bytes (opad ++ sha256Bytes (ipad ++ utf8Bytes msg)))

/-! ## JavaScript value model

The customData parameter of generateResponse is typed unknown in the source;
at runtime it is a JavaScript value.  We model the JSON-representable values
(floating point numbers restricted to integers, as flagged by the spec, the
JSON serialization of fractional numbers being environment-dependent). -/

inductive JSValue where
  | str : String → JSValue
  | num : Int → JSValue
  | bool : Bool → JSValue
  | null : JSValue
  | arr : List JSValue → JSValue
  | obj : List (String × JSValue) → JSValue

/-- JavaScript truthiness of a value: empty string, zero, false and null are
falsy; every array and object is truthy. -/
def JSValue.truthy : JSValue → Bool
  | .str s => s != ""
  | .num n => n != 0
  | .bool b => b
  | .null => false
  | .arr _ => true
  | .obj _ => true

/-- Truthiness of an optional value, undefined (absent) being falsy. -/
def jsTruthy : Option JSValue → Bool
  | none => false
  | some v => v.truthy

/-- The JavaScript string-or operator x || y for x a string or undefined:
yields y exactly when x is absent or the empty string. -/
def jsOrStr (x : Option String) (y : String) : String :=
  match x with
  | some s => if s = "" then y else s
  | none => y

/-- The prefix test behind String.prototype.startsWith, over character lists. -/
def listStartsWith : List Char → List Char → Bool
  | _, [] => true
  | [], _ :: _ => false
  | c :: cs, p :: ps => c == p && listStartsWith cs ps

/-- Embedding of apiKey.startsWith(kc_) from the constructor. -/
def jsStartsWith (s p : String) : Bool := listStartsWith s.data p.data

def jsonEscapeChar (c : Char) : List Char :=
  if c = '"' then ['\\', '"']
  else if c = '\\' then ['\\', '\\']
  else if c = '\n' then ['\\', 'n']
  else if c = '\r' then ['\\', 'r']
  else if c = '\t' then ['\\', 't']
  else if c = Char.ofNat 8 then ['\\', 'b']
  else if c = Char.ofNat 12 then ['\\', 'f']
  else if c.toNat < 32 then '\\' :: 'u' :: '0' :: '0' :: byteHex c.toNat
  else [c]

def jsonQuote (s : String) : String :=
  "\"" ++ String.mk (s.data.flatMap jsonEscapeChar) ++ "\""

mutual

/-- Embedding of JSON.stringify on the modelled values. -/
def jsonStringify : JSValue → String
  | .str s => jsonQuote s
  | .num n => toString n
  | .bool b => cond b "true" "false"
  | .null => "null"
  | .arr xs => "[" ++ String.intercalate "," (jsonStringifyList xs) ++ "]"
  | .obj fs => "\x7b" ++ String.intercalate "," (jsonStringifyMembers fs) ++ "\x7d"

def jsonStringifyList : List JSValue → List String
  | [] => []
  | v :: vs => jsonStringify v :: jsonStringifyList vs

def jsonStringifyMembers : List (String × JSValue) → List String
  | [] => []
  | (k, v) :: fs => (jsonQuote k ++ ":" ++ jsonStringify v) :: jsonStringifyMembers fs

end

/-! ## Data model of the SDK -/

/-- The single error kind of the SDK: message plus optional machine code and
optional HTTP status, as in class KeyClaimError. -/
structure KeyClaimError where
  message : String
  code : Option String
  statusCode : Option Nat
deriving Repr, DecidableEq

/-- The structured configuration form accepted by the constructor. -/
structure KeyClaimConfig where
  apiKey : String
  secret : Option String
deriving Repr, DecidableEq

/-- The private fields of KeyClaimClient after construction (the axios
instance is determined by baseUrl and apiKey and carries no further state). -/
structure KeyClaimClient where
  apiKey : String
  baseUrl : String
  secret : String
deriving Repr, DecidableEq

structure CreateChallengeOptions where
  ttl : Option Nat
deriving Repr, DecidableEq

structure CreateChallengeResponse where
  challenge : String
  expires_in : Nat
  encrypted : Option Bool
deriving Repr, DecidableEq

structure ValidateChallengeOptions where
  challenge : String
  response : String
  decryptedChallenge : Option String
deriving Repr, DecidableEq

inductive QuotaLimit where
  | num : Int → QuotaLimit
  | unlimited : QuotaLimit
deriving Repr, DecidableEq

structure QuotaInfo where
  used : Int
  remaining : Int
  quota : QuotaLimit
deriving Repr, DecidableEq

structure ValidateChallengeResponse where
  valid : Bool
  signature : Option String
  quota : Option QuotaInfo
  error : Option String
deriving Repr, DecidableEq

/-- The fields of an error-response body that the source ever reads
(error, message, valid), plus signature and quota so we can state that an
error body carrying them never leaks into a result.  An absent field is none;
a field present in the JSON body is some. -/
structure ErrBody where
  error : Option String
  message : Option String
  valid : Option Bool
  signature : Option String
  quota : Option QuotaInfo
deriving Repr, DecidableEq

/-- An HTTP response attached to an axios error: its status code and its
parsed body (none when the body is absent or falsy). -/
structure AxiosResponse where
  status : Nat
  data : Option ErrBody
deriving Repr, DecidableEq

/-- An error thrown by axios: response is present for a non-2xx reply,
request is true when a request went out but no response came back, and
message is the Error message string. -/
structure AxiosError where
  response : Option AxiosResponse
  request : Bool
  message : String
deriving Repr, DecidableEq

/-- A value reaching a catch block in the source: either an axios transport
error or an already-normalized KeyClaimError rethrown from an inner call. -/
inductive ThrownError where
  | axios : AxiosError → ThrownError
  | kcerr : KeyClaimError → ThrownError
deriving Repr, DecidableEq

/-! ## Base URL constant -/

def b64Val (c : Char) : Nat :=
  let n := c.toNat
  if 65 ≤ n ∧ n ≤ 90 then n - 65
  else if 97 ≤ n ∧ n ≤ 122 then n - 71
  else if 48 ≤ n ∧ n ≤ 57 then n + 4
  else if c = '+' then 62
  else if c = '/' then 63
  else 0

def b64Decode : List Char → List Nat
  | c0 :: c1 :: c2 :: c3 :: rest =>
    let n := b64Val c0 * 262144 + b64Val c1 * 4096 + b64Val c2 * 64 + b64Val c3
    let out := [n / 65536 % 256, n / 256 % 256, n % 256]
    let keep := if c2 = '=' then 1 else if c3 = '=' then 2 else 3
    out.take keep ++ b64Decode rest
  | _ => []

def asciiString (bs : List Nat) : String := String.mk (bs.map Char.ofNat)

def DEFAULT_BASE_URL_B64 : String := "aHR0cHM6Ly9rZXljbGFpbS5vcmc="

/-- The base URL the constructor decodes from base64. -/
def defaultBaseUrl : String := asciiString (b64Decode DEFAULT_BASE_URL_B64.data)

/-! ## Operations -/

/-- Embedding of the constructor.  The first argument is the structured
configuration object or the legacy positional apiKey string; the second is
the positional secret, used only in the positional form.  The source assigns
apiKey, baseUrl and secret, then rejects when the apiKey is falsy or does
not start with kc_. -/
def KeyClaimClient.construct (config : KeyClaimConfig ⊕ String) (secret : Option String) :
    Except KeyClaimError KeyClaimClient :=
  let apiKey := match config with
    | .inr s => s
    | .inl c => c.apiKey
  let sec := match config with
    | .inr s => jsOrStr secret s
    | .inl c => jsOrStr c.secret c.apiKey
  if apiKey = "" ∨ jsStartsWith apiKey "kc_" = false then
    .error ⟨"Invalid API key format. API key must start with \"kc_\"", none, none⟩
  else
    .ok ⟨apiKey, defaultBaseUrl, sec⟩

/-- Embedding of the private handleError method: normalize a caught value to
a KeyClaimError.  On a KeyClaimError input the duck-typed response and
request reads both yield undefined, so the unknown-failure arm is taken with
the message of the inner error. -/
def KeyClaimClient.handleError (error : ThrownError) (defaultMessage : String) : KeyClaimError :=
  match error with
  | .axios e =>
    match e.response with
    | some r =>
      let errorMessage := jsOrStr (r.data.bind ErrBody.error)
        (jsOrStr (r.data.bind ErrBody.message) e.message)
      ⟨jsOrStr (some errorMessage) defaultMessage, r.data.bind ErrBody.error, some r.status⟩
    | none =>
      if e.request then
        ⟨"Network error: No response received from server", some "network_error", none⟩
      else
        ⟨jsOrStr (some e.message) defaultMessage, some "unknown_error", none⟩
  | .kcerr e => ⟨jsOrStr (some e.message) defaultMessage, some "unknown_error", none⟩

/-- The ttl the createChallenge request body carries: options.ttl || 30. -/
def createChallengeRequestTtl (options : CreateChallengeOptions) : Nat :=
  match options.ttl with
  | some t => if t = 0 then 30 else t
  | none => 30

/-- Embedding of createChallenge.  The transport argument is what the single
axios post resolves or throws. -/
def KeyClaimClient.createChallenge (st : KeyClaimClient) (_options : CreateChallengeOptions)
    (transport : Except AxiosError CreateChallengeResponse) :
    (Except KeyClaimError CreateChallengeResponse) × KeyClaimClient :=
  (match transport with
   | .ok r => .ok r
   | .error e => .error (KeyClaimClient.handleError (.axios e) "Failed to create challenge"), st)

/-- Embedding of generateResponse.  The method parameter is a String: the
TypeScript union type is erased at runtime and the switch has a default arm
for any other string. -/
def KeyClaimClient.generateResponse (st : KeyClaimClient) (challenge : String)
    (method : String) (customData : Option JSValue) :
    (Except KeyClaimError String) × KeyClaimClient :=
  (if method = "echo" then .ok challenge
   else if method = "hmac" then .ok (hmacSha256Hex st.secret challenge)
   else if method = "hash" then .ok (sha256Hex (challenge ++ st.secret))
   else if method = "custom" then
     if jsTruthy customData = false then
       .error ⟨"Custom data is required for custom method", none, none⟩
     else
       match customData with
       | some (.str s) => .ok (sha256Hex (challenge ++ ":" ++ s))
       | some d => .ok (sha256Hex (challenge ++ ":" ++ jsonStringify d))
       | none => .error ⟨"Custom data is required for custom method", none, none⟩
   else .error ⟨"Unknown response method: " ++ method, none, none⟩, st)

/-- Embedding of validateChallenge.  On a transport error whose response body
is present and has a valid key, the source synthesizes a failed validation
result instead of throwing; otherwise it throws the normalized error. -/
def KeyClaimClient.validateChallenge (st : KeyClaimClient) (_options : ValidateChallengeOptions)
    (transport : Except AxiosError ValidateChallengeResponse) :
    (Except KeyClaimError ValidateChallengeResponse) × KeyClaimClient :=
  (match transport with
   | .ok r => .ok r
   | .error e =>
     match e.response.bind AxiosResponse.data with
     | some body =>
       if body.valid.isSome then
         .ok ⟨false, none, none, some (jsOrStr body.error "Validation failed")⟩
       else
         .error (KeyClaimClient.handleError (.axios e) "Failed to validate challenge")
     | none => .error (KeyClaimClient.handleError (.axios e) "Failed to validate challenge"), st)

/-- Embedding of the validate orchestration: create a challenge, derive the
response, validate the pair.  Every value thrown by an inner stage is a
KeyClaimError, and the outer catch re-normalizes it through handleError with
the default message Validation flow failed. -/
def KeyClaimClient.validateResult (st : KeyClaimClient) (method : String) (ttl : Nat)
    (customData : Option JSValue)
    (createTransport : Except AxiosError CreateChallengeResponse)
    (validateTransport : Except AxiosError ValidateChallengeResponse) :
    Except KeyClaimError ValidateChallengeResponse :=
  match (KeyClaimClient.createChallenge st ⟨some ttl⟩ createTransport).1 with
  | .error e => .error (KeyClaimClient.handleError (.kcerr e) "Validation flow failed")
  | .ok cr =>
    match (KeyClaimClient.generateResponse st cr.challenge method customData).1 with
    | .error e => .error (KeyClaimClient.handleError (.kcerr e) "Validation flow failed")
    | .ok resp =>
      match (KeyClaimClient.validateChallenge st ⟨cr.challenge, resp, none⟩ validateTransport).1 with
      | .error e => .error (KeyClaimClient.handleError (.kcerr e) "Validation flow failed")
      | .ok r => .ok r

def KeyClaimClient.validate (st : KeyClaimClient) (method : String) (ttl : Nat)
    (customData : Option JSValue)
    (createTransport : Except AxiosError CreateChallengeResponse)
    (validateTransport : Except AxiosError ValidateChallengeResponse) :
    (Except KeyClaimError ValidateChallengeResponse) × KeyClaimClient :=
  (KeyClaimClient.validateResult st method ttl customData createTransport validateTransport, st)

/-- The failure of one of the three stages of validate: either challenge
creation threw inner, or it succeeded and response generation threw inner, or
both succeeded and validation threw inner. -/
def validateStageError (st : KeyClaimClient) (method : String) (ttl : Nat)
    (customData : Option JSValue) (ct : Except AxiosError CreateChallengeResponse)
    (vt : Except AxiosError ValidateChallengeResponse) (inner : KeyClaimError) : Prop :=
  (KeyClaimClient.createChallenge st ⟨some ttl⟩ ct).1 = .error inner ∨
  (∃ cr, (KeyClaimClient.createChallenge st ⟨some ttl⟩ ct).1 = .ok cr ∧
    ((KeyClaimClient.generateResponse st cr.challenge method customData).1 = .error inner ∨
     (∃ resp, (KeyClaimClient.generateResponse st cr.challenge method customData).1 = .ok resp ∧
       (KeyClaimClient.validateChallenge st ⟨cr.challenge, resp, none⟩ vt).1 = .error inner)))

/-- A sample client for concrete instances: apiKey kc_key, secret s. -/
def sampleClient : KeyClaimClient := ⟨"kc_key", defaultBaseUrl, "s"⟩

/-- A remote rejection: a 500 response with a structured error body. -/
def c4RemoteRejection : AxiosError :=
  ⟨some ⟨500, some ⟨some "boom", none, none, none, none⟩⟩, true,
    "Request failed with status code 500"⟩

/-- A transport failure with a request but no response. -/
def networkDown : AxiosError := ⟨none, true, "socket hang up"⟩
/-- A body an error response might carry, asserting success and carrying a
signature and quota, to show none of it survives the synthesized result. -/
def adversarialBody : ErrBody := ⟨some "nope", none, some true, some "sig", some ⟨1, 2, .num 3⟩⟩

def adversarialError : AxiosError := ⟨some ⟨403, some adversarialBody⟩, true, "m"⟩

instance exceptDecEq {ε α : Type} [DecidableEq ε] [DecidableEq α] : DecidableEq (Except ε α) :=
  fun a b =>
  match a, b with
  | .ok x, .ok y =>
    if h : x = y then isTrue (by rw [h]) else isFalse (fun hc => by cases hc; exact h rfl)
  | .error x, .error y =>
    if h : x = y then isTrue (by rw [h]) else isFalse (fun hc => by cases hc; exact h rfl)
  | .ok _, .error _ => isFalse (fun hc => by cases hc)
  | .error _, .ok _ => isFalse (fun hc => by cases hc)

/-! ## Claim theorems -/

/-- Sanity vector: SHA-256 of the empty string matches the published value. -/
theorem sha256Hex_empty_vector :
    sha256Hex "" = "e3b0c44298fc1c149afbf4c8996fb92427ae41e4649b934ca495991b7852b855" := by decide

/-- Sanity vector: SHA-256 of abc matches the published value. -/
theorem sha256Hex_abc_vector :
    sha256Hex "abc" = "ba7816bf8f01cfea414140de5dae2223b00361a396177a9cb410ff61f20015ad" := by decide

/-- Sanity vector: HMAC-SHA256 with key s of abc123 matches the reference value. -/
theorem hmacSha256Hex_vector :
    hmacSha256Hex "s" "abc123" =
      "98a67abc7dc8e094098463fcecc56f07d3a485853a8890c79f78161e26fc5a87" := by decide

/-- Sanity: the obfuscated base64 constant decodes to the documented host. -/
theorem defaultBaseUrl_value : defaultBaseUrl = "https://keyclaim.org" := by decide

/-- C1: for every challenge string and every secret, generateResponse with the
hash method returns the hex-encoded SHA-256 digest of the concatenation
challenge ++ secret; in particular, with secret s, the response for challenge
abc123 is the SHA-256 hex digest of the literal string abc123s. -/
theorem C1_hash_is_sha256_of_concatenation :
    (∀ (st : KeyClaimClient) (challenge : String) (d : Option JSValue),
        (KeyClaimClient.generateResponse st challenge "hash" d).1 =
          .ok (sha256Hex (challenge ++ st.secret))) ∧
    (KeyClaimClient.generateResponse sampleClient "abc123" "hash" none).1 =
      .ok "1c26003c2debb0ab6eabed12f78d13935da7ba98973b2f89f675ffeff848ae68" :=
  ⟨fun _ _ _ => rfl, by decide⟩

/-- C2: generateResponse is deterministic and side-effect-free: two calls with
identical challenge, method and customData on the same client return the same
result, and neither call changes the client state. -/
theorem C2_generateResponse_deterministic_and_pure
    (st : KeyClaimClient) (challenge method : String) (d : Option JSValue) :
    (KeyClaimClient.generateResponse st challenge method d).1 =
      (KeyClaimClient.generateResponse
        (KeyClaimClient.generateResponse st challenge method d).2 challenge method d).1 ∧
    (KeyClaimClient.generateResponse st challenge method d).2 = st ∧
    (KeyClaimClient.generateResponse
      (KeyClaimClient.generateResponse st challenge method d).2 challenge method d).2 = st :=
  ⟨rfl, rfl, rfl⟩

/-- C3 counterexample: a 400 response whose body has valid present and the
error field present but equal to the empty string yields the fallback text
Validation failed, not the (present) empty error field the claim promises. -/
theorem C3_counterexample_empty_error_field :
    (KeyClaimClient.validateChallenge sampleClient ⟨"c", "r", none⟩
        (.error ⟨some ⟨400, some ⟨some "", none, some false, none, none⟩⟩, true,
          "Request failed with status code 400"⟩)).1 =
      .ok ⟨false, none, none, some "Validation failed"⟩ ∧
    ("Validation failed" : String) ≠ "" :=
  ⟨rfl, by decide⟩

/-- C3 amended: on an error response whose body carries a valid field, the
call does not throw but returns valid false with the error field of the body
when that field is present and non-empty, and Validation failed otherwise. -/
theorem C3_validateChallenge_error_path_synthesis
    (st : KeyClaimClient) (opts : ValidateChallengeOptions) (e : AxiosError) (body : ErrBody)
    (hdata : e.response.bind AxiosResponse.data = some body)
    (hvalid : body.valid.isSome = true) :
    (KeyClaimClient.validateChallenge st opts (.error e)).1 =
      .ok ⟨false, none, none, some (jsOrStr body.error "Validation failed")⟩ := by
  simp [KeyClaimClient.validateChallenge, hdata, hvalid]

/-- C3 witness: the 400 expired example from the claim. -/
theorem C3_validateChallenge_error_path_synthesis_witness :
    ((⟨some ⟨400, some ⟨some "expired", none, some false, none, none⟩⟩, true,
        "Request failed with status code 400"⟩ : AxiosError).response.bind AxiosResponse.data =
      some ⟨some "expired", none, some false, none, none⟩) ∧
    ((⟨some "expired", none, some false, none, none⟩ : ErrBody).valid.isSome = true) ∧
    (KeyClaimClient.validateChallenge sampleClient ⟨"c", "r", none⟩
        (.error ⟨some ⟨400, some ⟨some "expired", none, some false, none, none⟩⟩, true,
          "Request failed with status code 400"⟩)).1 =
      .ok ⟨false, none, none, some "expired"⟩ :=
  ⟨rfl, rfl, C3_validateChallenge_error_path_synthesis sampleClient ⟨"c", "r", none⟩
    ⟨some ⟨400, some ⟨some "expired", none, some false, none, none⟩⟩, true,
      "Request failed with status code 400"⟩
    ⟨some "expired", none, some false, none, none⟩ rfl rfl⟩

/-- C10: on the validateChallenge error path the synthesized result always has
valid false and carries no signature and no quota, whatever the body said. -/
theorem C10_error_path_result_shape
    (st : KeyClaimClient) (opts : ValidateChallengeOptions) (e : AxiosError) (body : ErrBody)
    (hdata : e.response.bind AxiosResponse.data = some body)
    (hvalid : body.valid.isSome = true) :
    ∃ msg : String,
      (KeyClaimClient.validateChallenge st opts (.error e)).1 =
        .ok ⟨false, none, none, some msg⟩ := by
  refine ⟨jsOrStr body.error "Validation failed", ?_⟩
  simp [KeyClaimClient.validateChallenge, hdata, hvalid]

/-- C10 witness: a body claiming valid true with signature and quota fields is
discarded wholesale. -/
theorem C10_error_path_result_shape_witness :
    (adversarialError.response.bind AxiosResponse.data = some adversarialBody) ∧
    (adversarialBody.valid.isSome = true) ∧
    ∃ msg : String,
      (KeyClaimClient.validateChallenge sampleClient ⟨"c", "r", none⟩
          (.error adversarialError)).1 = .ok ⟨false, none, none, some msg⟩ :=
  ⟨rfl, rfl, C10_error_path_result_shape sampleClient ⟨"c", "r", none⟩
    adversarialError adversarialBody rfl rfl⟩

/-- C5 counterexample: the empty string is a supplied customData value, yet
the custom method throws the input error instead of hashing it. -/
theorem C5_counterexample_empty_string_custom_data :
    (KeyClaimClient.generateResponse sampleClient "c" "custom" (some (.str ""))).1 =
      .error ⟨"Custom data is required for custom method", none, none⟩ :=
  rfl

/-- C5 amended: the custom method throws the input error when customData is
absent (and, per C9, for any falsy value); for truthy customData the output is
the hex SHA-256 of the challenge joined by a colon to the data itself when it
is a string and to its JSON serialization otherwise; and the output does vary
with the data, witnessed at two concrete data values. -/
theorem C5_custom_method_requires_truthy_data (st : KeyClaimClient) (challenge : String) :
    ((KeyClaimClient.generateResponse st challenge "custom" none).1 =
        .error ⟨"Custom data is required for custom method", none, none⟩) ∧
    (∀ d : JSValue, d.truthy = true →
        (KeyClaimClient.generateResponse st challenge "custom" (some d)).1 =
          .ok (sha256Hex (challenge ++ ":" ++
            (match d with
             | .str s => s
             | _ => jsonStringify d)))) ∧
    ((KeyClaimClient.generateResponse sampleClient "c" "custom" (some (.str "a"))).1 ≠
      (KeyClaimClient.generateResponse sampleClient "c" "custom" (some (.str "b"))).1) := by
  refine ⟨rfl, ?_, by decide⟩
  intro d hd
  cases d <;>
    simp_all [KeyClaimClient.generateResponse, jsTruthy, JSValue.truthy]

/-- C5 witness: a truthy string datum is hashed with the colon delimiter. -/
theorem C5_custom_method_requires_truthy_data_witness :
    ((JSValue.str "x").truthy = true) ∧
    (KeyClaimClient.generateResponse sampleClient "c" "custom" (some (.str "x"))).1 =
      .ok (sha256Hex ("c" ++ ":" ++ "x")) :=
  ⟨by decide, (C5_custom_method_requires_truthy_data sampleClient "c").2.1 (.str "x") (by decide)⟩

/-- C9: the custom method rejects every falsy customData value, absent or
supplied, with the Custom data is required input error. -/
theorem C9_custom_rejects_falsy_data (st : KeyClaimClient) (challenge : String)
    (d : Option JSValue) (h : jsTruthy d = false) :
    (KeyClaimClient.generateResponse st challenge "custom" d).1 =
      .error ⟨"Custom data is required for custom method", none, none⟩ := by
  simp [KeyClaimClient.generateResponse, h]

/-- C9 witness: the number 0 is supplied yet rejected; so are the empty
string, false and null. -/
theorem C9_custom_rejects_falsy_data_witness :
    (jsTruthy (some (.num 0)) = false ∧
      (KeyClaimClient.generateResponse sampleClient "c" "custom" (some (.num 0))).1 =
        .error ⟨"Custom data is required for custom method", none, none⟩) ∧
    jsTruthy (some (.str "")) = false ∧
    jsTruthy (some (.bool false)) = false ∧
    jsTruthy (some .null) = false ∧
    jsTruthy none = false :=
  ⟨⟨by decide, C9_custom_rejects_falsy_data sampleClient "c" (some (.num 0)) (by decide)⟩,
    by decide, by decide, by decide, by decide⟩

/-- C6: any method string other than echo, hmac, hash and custom is rejected
with an input error whose message names the unrecognized method. -/
theorem C6_unknown_method_error (st : KeyClaimClient) (challenge method : String)
    (d : Option JSValue) (h : method ∉ (["echo", "hmac", "hash", "custom"] : List String)) :
    ∃ msg : String,
      (KeyClaimClient.generateResponse st challenge method d).1 = .error ⟨msg, none, none⟩ ∧
      msg = "Unknown response method: " ++ method ∧
      ∃ pre : String, msg = pre ++ method := by
  have h1 : method ≠ "echo" := fun he => h (by simp [he])
  have h2 : method ≠ "hmac" := fun he => h (by simp [he])
  have h3 : method ≠ "hash" := fun he => h (by simp [he])
  have h4 : method ≠ "custom" := fun he => h (by simp [he])
  exact ⟨"Unknown response method: " ++ method,
    by simp [KeyClaimClient.generateResponse, h1, h2, h3, h4], rfl,
    ⟨"Unknown response method: ", rfl⟩⟩

/-- C6 witness: the method rot13 is unknown and named in the error message. -/
theorem C6_unknown_method_error_witness :
    ("rot13" ∉ (["echo", "hmac", "hash", "custom"] : List String)) ∧
    ∃ msg : String,
      (KeyClaimClient.generateResponse sampleClient "c" "rot13" none).1 =
        .error ⟨msg, none, none⟩ ∧
      msg = "Unknown response method: " ++ "rot13" ∧
      ∃ pre : String, msg = pre ++ "rot13" :=
  ⟨by decide, C6_unknown_method_error sampleClient "c" "rot13" none (by decide)⟩

/-- C7: construction, in either the structured or the positional form, fails
with the KeyClaimError about the key format for every apiKey that does not
start with kc_ (the empty string included), and succeeds for every apiKey
that does. -/
theorem C7_constructor_requires_kc_key (apiKey : String) (cfgSecret posSecret : Option String) :
    (jsStartsWith apiKey "kc_" = false →
      (KeyClaimClient.construct (.inl ⟨apiKey, cfgSecret⟩) posSecret =
        .error ⟨"Invalid API key format. API key must start with \"kc_\"", none, none⟩) ∧
      (KeyClaimClient.construct (.inr apiKey) posSecret =
        .error ⟨"Invalid API key format. API key must start with \"kc_\"", none, none⟩)) ∧
    (jsStartsWith apiKey "kc_" = true →
      (KeyClaimClient.construct (.inl ⟨apiKey, cfgSecret⟩) posSecret =
        .ok ⟨apiKey, defaultBaseUrl, jsOrStr cfgSecret apiKey⟩) ∧
      (KeyClaimClient.construct (.inr apiKey) posSecret =
        .ok ⟨apiKey, defaultBaseUrl, jsOrStr posSecret apiKey⟩)) := by
  constructor
  · intro h
    constructor <;> simp [KeyClaimClient.construct, h]
  · intro h
    have hne : apiKey ≠ "" := by
      intro he
      rw [he] at h
      exact absurd h (by decide)
    constructor <;> simp [KeyClaimClient.construct, h, hne]

/-- C7 witness: the key bad is rejected in the structured form and the key
kc_ok is accepted in the positional form. -/
theorem C7_constructor_requires_kc_key_witness :
    (jsStartsWith "bad" "kc_" = false ∧
      KeyClaimClient.construct (.inl ⟨"bad", none⟩) none =
        .error ⟨"Invalid API key format. API key must start with \"kc_\"", none, none⟩) ∧
    (jsStartsWith "kc_ok" "kc_" = true ∧
      KeyClaimClient.construct (.inr "kc_ok") none = .ok ⟨"kc_ok", defaultBaseUrl, "kc_ok"⟩) :=
  ⟨⟨by decide, ((C7_constructor_requires_kc_key "bad" none none).1 (by decide)).1⟩,
   ⟨by decide, ((C7_constructor_requires_kc_key "kc_ok" none none).2 (by decide)).2⟩⟩

/-- C8 counterexample: a supplied but empty secret is not kept; the client
falls back to the apiKey, so the secret does not equal the supplied one. -/
theorem C8_counterexample_empty_secret_falls_back :
    KeyClaimClient.construct (.inl ⟨"kc_key", some ""⟩) none =
      .ok ⟨"kc_key", defaultBaseUrl, "kc_key"⟩ ∧
    ("kc_key" : String) ≠ "" :=
  ⟨rfl, by decide⟩

/-- C8 amended: the secret of a constructed client is the supplied secret
when that is set and non-empty and the apiKey otherwise, and no operation
changes the client state, so apiKey and secret stay what construction set. -/
theorem C8_credentials_assignment_and_immutability
    (apiKey : String) (cfgSecret posSecret : Option String) :
    (∀ st, KeyClaimClient.construct (.inl ⟨apiKey, cfgSecret⟩) posSecret = .ok st →
        st.apiKey = apiKey ∧ st.secret = jsOrStr cfgSecret apiKey) ∧
    (∀ st, KeyClaimClient.construct (.inr apiKey) posSecret = .ok st →
        st.apiKey = apiKey ∧ st.secret = jsOrStr posSecret apiKey) ∧
    (∀ (st : KeyClaimClient) (o : CreateChallengeOptions)
        (t : Except AxiosError CreateChallengeResponse),
        (KeyClaimClient.createChallenge st o t).2 = st) ∧
    (∀ (st : KeyClaimClient) (c m : String) (d : Option JSValue),
        (KeyClaimClient.generateResponse st c m d).2 = st) ∧
    (∀ (st : KeyClaimClient) (o : ValidateChallengeOptions)
        (t : Except AxiosError ValidateChallengeResponse),
        (KeyClaimClient.validateChallenge st o t).2 = st) ∧
    (∀ (st : KeyClaimClient) (m : String) (ttl : Nat) (d : Option JSValue)
        (ct : Except AxiosError CreateChallengeResponse)
        (vt : Except AxiosError ValidateChallengeResponse),
        (KeyClaimClient.validate st m ttl d ct vt).2 = st) := by
  refine ⟨?_, ?_, fun _ _ _ => rfl, fun _ _ _ _ => rfl, fun _ _ _ => rfl,
    fun _ _ _ _ _ _ => rfl⟩
  · intro st h
    simp only [KeyClaimClient.construct] at h
    split at h
    · exact Except.noConfusion h
    · injection h with h2
      rw [← h2]
      exact ⟨rfl, rfl⟩
  · intro st h
    simp only [KeyClaimClient.construct] at h
    split at h
    · exact Except.noConfusion h
    · injection h with h2
      rw [← h2]
      exact ⟨rfl, rfl⟩

/-- C8 witness: a non-empty supplied secret is kept verbatim. -/
theorem C8_credentials_assignment_and_immutability_witness :
    KeyClaimClient.construct (.inl ⟨"kc_key", some "topsecret"⟩) none =
      .ok ⟨"kc_key", defaultBaseUrl, "topsecret"⟩ ∧
    (⟨"kc_key", defaultBaseUrl, "topsecret"⟩ : KeyClaimClient).apiKey = "kc_key" ∧
    (⟨"kc_key", defaultBaseUrl, "topsecret"⟩ : KeyClaimClient).secret =
      jsOrStr (some "topsecret") "kc_key" :=
  ⟨rfl, (C8_credentials_assignment_and_immutability "kc_key" (some "topsecret") none).1
    ⟨"kc_key", defaultBaseUrl, "topsecret"⟩ rfl⟩

/-- C4 counterexample: a challenge-creation rejection with HTTP status 500
surfaces from validate as a KeyClaimError whose statusCode is none and whose
code is unknown_error: the status of the remote rejection is not carried. -/
theorem C4_counterexample_status_code_dropped :
    (KeyClaimClient.validate sampleClient "hmac" 30 none (.error c4RemoteRejection)
        (.ok ⟨true, none, none, none⟩)).1 =
      .error ⟨"boom", some "unknown_error", none⟩ ∧
    (⟨"boom", some "unknown_error", none⟩ : KeyClaimError).statusCode ≠ some 500 :=
  ⟨rfl, by decide⟩

/-- C4 amended: every failure of validate is a KeyClaimError produced by
re-normalizing the KeyClaimError of the failing stage: its message is the
message of the stage error (Validation flow failed when that is empty), its
code is always unknown_error, and its statusCode is always none, the HTTP
status recorded on the stage error being dropped by the re-normalization. -/
theorem C4_validate_failure_normalization (st : KeyClaimClient) (method : String) (ttl : Nat)
    (d : Option JSValue) (ct : Except AxiosError CreateChallengeResponse)
    (vt : Except AxiosError ValidateChallengeResponse) (err : KeyClaimError)
    (h : (KeyClaimClient.validate st method ttl d ct vt).1 = .error err) :
    ∃ inner : KeyClaimError,
      validateStageError st method ttl d ct vt inner ∧
      err = ⟨jsOrStr (some inner.message) "Validation flow failed",
        some "unknown_error", none⟩ := by
  have h' : KeyClaimClient.validateResult st method ttl d ct vt = .error err := h
  unfold KeyClaimClient.validateResult at h'
  rcases hc : (KeyClaimClient.createChallenge st ⟨some ttl⟩ ct).1 with e | cr
  · simp only [hc] at h'
    injection h' with h2
    exact ⟨e, Or.inl hc, h2.symm⟩
  · simp only [hc] at h'
    rcases hg : (KeyClaimClient.generateResponse st cr.challenge method d).1 with e | resp
    · simp only [hg] at h'
      injection h' with h2
      exact ⟨e, Or.inr ⟨cr, hc, Or.inl hg⟩, h2.symm⟩
    · simp only [hg] at h'
      rcases hv : (KeyClaimClient.validateChallenge st ⟨cr.challenge, resp, none⟩ vt).1 with e | r
      · simp only [hv] at h'
        injection h' with h2
        exact ⟨e, Or.inr ⟨cr, hc, Or.inr ⟨resp, hg, hv⟩⟩, h2.symm⟩
      · simp only [hv] at h'
        exact Except.noConfusion h'

/-- C4 witness: a network failure during challenge creation propagates with
the network message, code unknown_error and no status. -/
theorem C4_validate_failure_normalization_witness :
    ((KeyClaimClient.validate sampleClient "echo" 30 none (.error networkDown)
        (.ok ⟨true, none, none, none⟩)).1 =
      .error ⟨"Network error: No response received from server", some "unknown_error", none⟩) ∧
    ∃ inner : KeyClaimError,
      validateStageError sampleClient "echo" 30 none (.error networkDown)
        (.ok ⟨true, none, none, none⟩) inner ∧
      (⟨"Network error: No response received from server", some "unknown_error", none⟩ :
          KeyClaimError) =
        ⟨jsOrStr (some inner.message) "Validation flow failed", some "unknown_error", none⟩ :=
  ⟨rfl, C4_validate_failure_normalization sampleClient "echo" 30 none (.error networkDown)
    (.ok ⟨true, none, none, none⟩)
    ⟨"Network error: No response received from server", some "unknown_error", none⟩ rfl⟩
